import Mathlib

/-!
Verification development for the session streaming client of the
StartupValidators frontend.  The definitions below are a shallow embedding of
the React component in the source file (the `ValidatePage` component): the
mutable `useState`/`useRef` cells become fields of `ComponentState`, the
functions `addLine`, `handleEvent`, `startResearch`, `fallbackToSSE`, `reset`
and the derived `currentStep` become Lean functions, and the asynchronous
browser callbacks (`ws.onopen`, `ws.onmessage`, `ws.onerror`, `ws.onclose`,
`es.onmessage`, `es.onerror`) become an explicit `step` relation driven by an
environment-chosen list of `Action`s.  Transport connections (`WebSocket` /
`EventSource` objects) are modelled as entries of a `conns` list; the list
index plays the role of the object identity, `connRef` is the index held by
the `connRef` ref, and the per-connection record keeps the closure-captured
request arguments and the `wsCompleted` closure flag.

Browser facts used by the model: message and error events are only delivered
on a connection that is still open; calling `close` prevents further
message/error events; the `close` event of a WebSocket fires exactly once, and
its status code equals the code passed to a client-side `close(code)` call,
is never 1000 when the client closed without a code, and is arbitrary
(environment chosen) when the peer or the network closed the connection.
-/

namespace StartupValidator

/-- The final research payload is opaque to the client; it is modelled as a
plain identifier. -/
abbrev ResearchResult := Nat

/-- Authenticated user record (`AuthUser` in the source). -/
structure AuthUser where
  uid : String
  name : String
  email : String
  deriving DecidableEq, Repr

/-- One entry of the terminal log (`LogLine` in the source). -/
structure LogLine where
  id : Nat
  type : String
  ts : String
  msg : String
  deriving DecidableEq, Repr

/-- One decoded wire event, as produced by `JSON.parse` on an inbound
transport message: a `type` tag, optional timestamp and message text, and the
optional final payload carried by `complete` events. -/
structure Payload where
  type : String
  ts : String
  msg : String
  result : Option ResearchResult
  deriving DecidableEq, Repr

/-- Which transport mechanism a connection object is. -/
inductive ConnKind where
  | ws
  | sse
  deriving DecidableEq, Repr

/-- The `wsStatus` state cell: `"idle" | "ws" | "sse" | "error"`. -/
inductive WsStatus where
  | idle
  | ws
  | sse
  | error
  deriving DecidableEq, Repr

/-- One transport connection object.  `ideaArg`, `descArg`, `tokenArg` are the
request arguments captured by the creating closure; `isOpen` tracks whether
the connection can still deliver events; `opened` whether the WebSocket open
event has fired; `closeFired` whether the WebSocket close event has fired;
`completedFlag` is the `wsCompleted` closure variable of `startResearch`;
`clientClose` records a client-side `close` call (`some (some k)` for
`close(k)`, `some none` for `close()` without a code, `none` if the client
never closed it). -/
structure Conn where
  kind : ConnKind
  ideaArg : String
  descArg : String
  tokenArg : String
  isOpen : Bool
  opened : Bool
  closeFired : Bool
  completedFlag : Bool
  clientClose : Option (Option Nat)
  deriving DecidableEq, Repr

/-- The state cells of the `ValidatePage` component that the session core
reads or writes, together with the connection objects created so far. -/
structure ComponentState where
  idea : String
  description : String
  user : Option AuthUser
  token : String
  showAuthModal : Bool
  running : Bool
  done : Bool
  lines : List LogLine
  result : Option ResearchResult
  error : String
  activeTab : String
  termCollapsed : Bool
  wsStatus : WsStatus
  idRef : Nat
  conns : List Conn
  connRef : Option Nat
  deriving DecidableEq, Repr

/-- JavaScript `String.prototype.trim`: strip leading and trailing
whitespace. -/
def jsTrim (s : String) : String :=
  String.mk (((s.data.dropWhile Char.isWhitespace).reverse.dropWhile Char.isWhitespace).reverse)

/-- `addLine`: append a log line, assigning `++idRef.current` as its id. -/
def addLine (type ts msg : String) (s : ComponentState) : ComponentState :=
  { s with
    lines := s.lines ++ [{ id := s.idRef + 1, type := type, ts := ts, msg := msg }],
    idRef := s.idRef + 1 }

/-- Client-side `close` on a WebSocket object (`close(k)` when
`code = some k`, `close()` when `code = none`); a no-op on an already closed
connection. -/
def closeWs (code : Option Nat) (c : Conn) : Conn :=
  if c.isOpen = true then { c with isOpen := false, clientClose := some code } else c

/-- Client-side `close()` on an EventSource object. -/
def closeEs (c : Conn) : Conn :=
  if c.isOpen = true then { c with isOpen := false } else c

/-- Close the connection stored at index `i`, dispatching on its kind exactly
as `connRef.current instanceof WebSocket` does in the source. -/
def closeConnAt (code : Option Nat) (i : Nat) (s : ComponentState) : ComponentState :=
  match s.conns[i]? with
  | none => s
  | some c =>
    match c.kind with
    | ConnKind.ws => { s with conns := s.conns.set i (closeWs code c) }
    | ConnKind.sse => { s with conns := s.conns.set i (closeEs c) }

/-- Close the connection currently referenced by `connRef`, if any. -/
def closeConnRef (code : Option Nat) (s : ComponentState) : ComponentState :=
  match s.connRef with
  | none => s
  | some i => closeConnAt code i s

/-- The log line text appended by the EventSource error handler. -/
def connLostMsg : String := "  ✗ Connection lost — is server running on :3001?"

/-- The error message stored by the EventSource error handler. -/
def serverFailMsg : String := "Server connection failed. Run: cd server && node index.js"

/-- `handleEvent`: the single event handler shared by both transports. -/
def handleEvent (p : Payload) (s : ComponentState) : ComponentState :=
  if p.type = "ping" then s
  else if p.type = "complete" then
    closeConnRef none
      { s with result := p.result, done := true, running := false, termCollapsed := true }
  else if p.type = "error" then
    { s with error := if p.msg = "" then "Agent error" else p.msg, running := false }
  else addLine p.type p.ts p.msg s

/-- `fallbackToSSE`: open an EventSource whose address encodes
`{idea, description, token}` and make it the current connection. -/
def fallbackToSSE (ideaTrimmed descTrimmed : String) (s : ComponentState) : ComponentState :=
  { s with
    wsStatus := WsStatus.sse,
    conns := s.conns ++ [{ kind := ConnKind.sse, ideaArg := ideaTrimmed,
                           descArg := descTrimmed, tokenArg := s.token,
                           isOpen := true, opened := true, closeFired := false,
                           completedFlag := false, clientClose := none }],
    connRef := some s.conns.length }

/-- `startResearch`: guard on missing user / empty idea / already running,
reset the per-run state, then open the primary WebSocket (`ctorOk = true`) or
fall back immediately when the constructor throws (`ctorOk = false`). -/
def startResearch (ctorOk : Bool) (s : ComponentState) : ComponentState :=
  if s.user = none then { s with showAuthModal := true }
  else if jsTrim s.idea = "" ∨ s.running = true then s
  else
    let s1 := { s with running := true, done := false, lines := [], result := none,
                       error := "", termCollapsed := false, activeTab := "overview" }
    let ideaTrimmed := jsTrim s.idea
    let descTrimmed := jsTrim s.description
    if ctorOk = true then
      { s1 with
        conns := s1.conns ++ [{ kind := ConnKind.ws, ideaArg := ideaTrimmed,
                                descArg := descTrimmed, tokenArg := s1.token,
                                isOpen := true, opened := false, closeFired := false,
                                completedFlag := false, clientClose := none }],
        connRef := some s1.conns.length }
    else fallbackToSSE ideaTrimmed descTrimmed s1

/-- `reset`: close the current connection (WebSocket with status code 1000,
EventSource without) and clear the per-run state. -/
def reset (s : ComponentState) : ComponentState :=
  let s1 := closeConnRef (some 1000) s
  { s1 with running := false, done := false, lines := [], result := none,
            error := "", idea := "", description := "", wsStatus := WsStatus.idle }

/-- Mark the `wsCompleted` closure flag of connection `i` (set in
`ws.onmessage` before `handleEvent` runs). -/
def setCompleted (i : Nat) (s : ComponentState) : ComponentState :=
  match s.conns[i]? with
  | none => s
  | some c => { s with conns := s.conns.set i { c with completedFlag := true } }

/-- Which status codes the close event of a WebSocket may carry, given how the
connection was closed (see the module comment). -/
def codeAllowed (c : Conn) (code : Nat) : Bool :=
  match c.clientClose with
  | some (some k) => code == k
  | some none => !(code == 1000)
  | none => true

/-- Environment actions: user commands (typing, `startResearch`, `reset`) and
transport callbacks. -/
inductive Action where
  | setIdea (v : String)
  | setDescription (v : String)
  | start (ctorOk : Bool)
  | reset
  | wsOpen (i : Nat)
  | wsMessage (i : Nat) (p : Payload)
  | wsError (i : Nat)
  | wsClose (i : Nat) (code : Nat)
  | sseMessage (i : Nat) (p : Payload)
  | sseError (i : Nat)
  deriving DecidableEq, Repr

/-- One step of the event-driven semantics.  Actions whose preconditions do
not hold (connection missing, closed, wrong kind, impossible close code) are
identity steps. -/
def step (a : Action) (s : ComponentState) : ComponentState :=
  match a with
  | Action.setIdea v => { s with idea := v }
  | Action.setDescription v => { s with description := v }
  | Action.start ok => startResearch ok s
  | Action.reset => reset s
  | Action.wsOpen i =>
    match s.conns[i]? with
    | some c =>
      if c.kind = ConnKind.ws ∧ c.isOpen = true ∧ c.opened = false then
        { s with conns := s.conns.set i { c with opened := true }, wsStatus := WsStatus.ws }
      else s
    | none => s
  | Action.wsMessage i p =>
    match s.conns[i]? with
    | some c =>
      if c.kind = ConnKind.ws ∧ c.isOpen = true then
        handleEvent p (if p.type = "complete" then setCompleted i s else s)
      else s
    | none => s
  | Action.wsError i =>
    match s.conns[i]? with
    | some c =>
      if c.kind = ConnKind.ws ∧ c.isOpen = true then
        fallbackToSSE c.ideaArg c.descArg
          { s with conns := s.conns.set i { c with isOpen := false, clientClose := some none } }
      else s
    | none => s
  | Action.wsClose i code =>
    match s.conns[i]? with
    | some c =>
      if c.kind = ConnKind.ws ∧ c.closeFired = false ∧ codeAllowed c code = true then
        let s1 := { s with conns := s.conns.set i { c with isOpen := false, closeFired := true } }
        if c.completedFlag = false ∧ ¬code = 1000 then
          fallbackToSSE c.ideaArg c.descArg s1
        else s1
      else s
    | none => s
  | Action.sseMessage i p =>
    match s.conns[i]? with
    | some c =>
      if c.kind = ConnKind.sse ∧ c.isOpen = true then handleEvent p s else s
    | none => s
  | Action.sseError i =>
    match s.conns[i]? with
    | some c =>
      if c.kind = ConnKind.sse ∧ c.isOpen = true then
        let s1 := addLine "error" "" connLostMsg s
        { s1 with running := false, wsStatus := WsStatus.error,
                  conns := s1.conns.set i (closeEs c),
                  error := serverFailMsg }
      else s
    | none => s

/-- Initial component state: the `useState` initial values, with the typed-in
idea/description and the restored auth session as parameters. -/
def mkInit (idea description token : String) (user : Option AuthUser) : ComponentState :=
  { idea := idea, description := description, user := user, token := token,
    showAuthModal := false, running := false, done := false, lines := [],
    result := none, error := "", activeTab := "overview", termCollapsed := false,
    wsStatus := WsStatus.idle, idRef := 0, conns := [], connRef := none }

/-- Run a list of environment actions from a starting state. -/
def run (s0 : ComponentState) (acts : List Action) : ComponentState :=
  acts.foldl (fun s a => step a s) s0

/-- JavaScript `String.prototype.includes`: contiguous substring test. -/
def hasSubstr (s pat : String) : Bool :=
  s.data.tails.any (fun t => pat.data.isPrefixOf t)

/-- The marker-matching chain of the `currentStep` memo, mapping the text of
the most recent `step`/`step_done` line to a stage index. -/
def stageOfMsg (msg : String) : Int :=
  if hasSubstr msg "Plan" then 0
  else if hasSubstr msg "1 / 6" || hasSubstr msg "Trends" then 1
  else if hasSubstr msg "2 / 6" || hasSubstr msg "Demand" then 2
  else if hasSubstr msg "3 / 6" || hasSubstr msg "Adopter" then 3
  else if hasSubstr msg "4 / 6" || hasSubstr msg "Funder" then 4
  else if hasSubstr msg "5 / 6" || hasSubstr msg "Community" then 5
  else if hasSubstr msg "6 / 6" || hasSubstr msg "Web" then 6
  else if hasSubstr msg "SYNTHESIS" then 7
  else 0

/-- The predicate of the backward scan in `currentStep`. -/
def isStepLine (l : LogLine) : Bool :=
  l.type == "step" || l.type == "step_done"

/-- The `currentStep` memo: the derived pipeline stage as a function of
`done`, `running` and `lines`. -/
def currentStep (done running : Bool) (lines : List LogLine) : Int :=
  if done = true then 8
  else if running = false then -1
  else if lines.isEmpty = true then 0
  else
    match lines.reverse.find? isStepLine with
    | none => 0
    | some last => stageOfMsg last.msg

/-- The log lines actually rendered in the terminal: the source maps a line of
type `"ping"` to `null` and renders every other line. -/
def renderedLines (s : ComponentState) : List LogLine :=
  s.lines.filter (fun l => l.type ≠ "ping")

/-- The SSE fallback connections opened so far. -/
def sseConns (s : ComponentState) : List Conn :=
  s.conns.filter (fun c => c.kind = ConnKind.sse)

/-- Whether the connection at index `i` is open (false if there is none). -/
def connOpenAt (s : ComponentState) (i : Nat) : Bool :=
  match s.conns[i]? with
  | some c => c.isOpen
  | none => false

/-- `idsFrom k ls` holds when the ids of `ls` are exactly `k, k+1, k+2, ...`. -/
def idsFrom : Nat → List LogLine → Bool
  | _, [] => true
  | k, l :: ls => (l.id == k) && idsFrom (k + 1) ls

/-- The log/id-counter invariant: the ids in the log are consecutive and end
at the current value of `idRef`. -/
def LogInv (s : ComponentState) : Prop :=
  idsFrom (s.idRef + 1 - s.lines.length) s.lines = true ∧ s.lines.length ≤ s.idRef

/-- While the session is running no result is present. -/
def ResultInv (s : ComponentState) : Prop :=
  s.running = true → s.result = none

/-- No log entry has a control kind. -/
def TypesOk (s : ComponentState) : Prop :=
  ∀ l ∈ s.lines, ¬l.type = "ping" ∧ ¬l.type = "complete"

/-- A starting state used for the concrete scenarios: a logged-in user and a
typed-in idea. -/
def demoInit : ComponentState :=
  mkInit "AI code review tool" "" "tok123"
    (some { uid := "u1", name := "Ada", email := "ada@example.com" })

/-- A primary-transport failure as browsers deliver it: the WebSocket fires
its error event and then its close event with the abnormal code 1006. -/
def failTrace : List Action := [Action.start true, Action.wsError 0, Action.wsClose 0 1006]

/-- A step payload. -/
def pStep : Payload := { type := "step", ts := "", msg := "Plan Queries", result := none }

/-- A second step payload. -/
def pStep2 : Payload := { type := "step", ts := "", msg := "1 / 6 Trends", result := none }

/-- An init payload. -/
def pInit : Payload := { type := "init", ts := "", msg := "boot", result := none }

/-- A completion payload carrying the final result. -/
def pComplete : Payload := { type := "complete", ts := "", msg := "", result := some 42 }

/-- A worker error payload. -/
def pError : Payload := { type := "error", ts := "", msg := "rate limited", result := none }

/-- A keep-alive payload. -/
def pPing : Payload := { type := "ping", ts := "", msg := "", result := none }

/-! ### Concrete traces used as counterexamples -/

/-- Primary failure, reset, then the stale first fallback delivers an event. -/
def resetDiscardTrace : List Action :=
  [Action.start true, Action.wsError 0, Action.wsClose 0 1006, Action.reset,
   Action.sseMessage 1 pStep]

/-- Primary failure, the second fallback completes, then the stale first
fallback delivers a step event. -/
def staleCompleteTrace : List Action :=
  [Action.start true, Action.wsError 0, Action.wsClose 0 1006,
   Action.sseMessage 2 pComplete, Action.sseMessage 1 pStep2]

/-- Two sessions in a row: a log line in the first, a reset, a new idea, and a
log line in the second session. -/
def twoSessionTrace : List Action :=
  [Action.start true, Action.wsMessage 0 pInit, Action.reset, Action.setIdea "second idea",
   Action.start true, Action.wsMessage 1 pInit]

/-! ### Basic lemmas about the operations -/

theorem closeWs_isOpen (code : Option Nat) (c : Conn) : (closeWs code c).isOpen = false := by
  unfold closeWs
  split
  · rfl
  · next h => simpa using h

theorem closeEs_isOpen (c : Conn) : (closeEs c).isOpen = false := by
  unfold closeEs
  split
  · rfl
  · next h => simpa using h

theorem closeWs_of_isOpen (code : Option Nat) (c : Conn) (h : c.isOpen = true) :
    closeWs code c = { c with isOpen := false, clientClose := some code } := by
  unfold closeWs
  rw [if_pos h]

theorem closeConnAt_lines (code : Option Nat) (i : Nat) (s : ComponentState) :
    (closeConnAt code i s).lines = s.lines := by
  unfold closeConnAt
  split
  · rfl
  · split <;> rfl

theorem closeConnAt_idRef (code : Option Nat) (i : Nat) (s : ComponentState) :
    (closeConnAt code i s).idRef = s.idRef := by
  unfold closeConnAt
  split
  · rfl
  · split <;> rfl

theorem closeConnAt_running (code : Option Nat) (i : Nat) (s : ComponentState) :
    (closeConnAt code i s).running = s.running := by
  unfold closeConnAt
  split
  · rfl
  · split <;> rfl

theorem closeConnAt_done (code : Option Nat) (i : Nat) (s : ComponentState) :
    (closeConnAt code i s).done = s.done := by
  unfold closeConnAt
  split
  · rfl
  · split <;> rfl

theorem closeConnAt_result (code : Option Nat) (i : Nat) (s : ComponentState) :
    (closeConnAt code i s).result = s.result := by
  unfold closeConnAt
  split
  · rfl
  · split <;> rfl

theorem closeConnAt_error (code : Option Nat) (i : Nat) (s : ComponentState) :
    (closeConnAt code i s).error = s.error := by
  unfold closeConnAt
  split
  · rfl
  · split <;> rfl

theorem closeConnAt_connRef (code : Option Nat) (i : Nat) (s : ComponentState) :
    (closeConnAt code i s).connRef = s.connRef := by
  unfold closeConnAt
  split
  · rfl
  · split <;> rfl

theorem closeConnAt_wsStatus (code : Option Nat) (i : Nat) (s : ComponentState) :
    (closeConnAt code i s).wsStatus = s.wsStatus := by
  unfold closeConnAt
  split
  · rfl
  · split <;> rfl

theorem closeConnRef_lines (code : Option Nat) (s : ComponentState) :
    (closeConnRef code s).lines = s.lines := by
  unfold closeConnRef
  split
  · rfl
  · exact closeConnAt_lines _ _ _

theorem closeConnRef_idRef (code : Option Nat) (s : ComponentState) :
    (closeConnRef code s).idRef = s.idRef := by
  unfold closeConnRef
  split
  · rfl
  · exact closeConnAt_idRef _ _ _

theorem closeConnRef_running (code : Option Nat) (s : ComponentState) :
    (closeConnRef code s).running = s.running := by
  unfold closeConnRef
  split
  · rfl
  · exact closeConnAt_running _ _ _

theorem closeConnRef_done (code : Option Nat) (s : ComponentState) :
    (closeConnRef code s).done = s.done := by
  unfold closeConnRef
  split
  · rfl
  · exact closeConnAt_done _ _ _

theorem closeConnRef_result (code : Option Nat) (s : ComponentState) :
    (closeConnRef code s).result = s.result := by
  unfold closeConnRef
  split
  · rfl
  · exact closeConnAt_result _ _ _

theorem closeConnRef_error (code : Option Nat) (s : ComponentState) :
    (closeConnRef code s).error = s.error := by
  unfold closeConnRef
  split
  · rfl
  · exact closeConnAt_error _ _ _

theorem closeConnRef_connRef (code : Option Nat) (s : ComponentState) :
    (closeConnRef code s).connRef = s.connRef := by
  unfold closeConnRef
  split
  · rfl
  · exact closeConnAt_connRef _ _ _

/-- Closing the referenced connection indeed leaves it closed. -/
theorem connOpenAt_closeConnAt (code : Option Nat) (i : Nat) (s : ComponentState) :
    connOpenAt (closeConnAt code i s) i = false := by
  rcases h : s.conns[i]? with _ | c
  · simp only [closeConnAt, connOpenAt, h]
  · have hlt : i < s.conns.length := (List.getElem?_eq_some.mp h).1
    unfold closeConnAt
    rw [h]
    cases hk : c.kind
    · simp only [hk, connOpenAt, List.getElem?_set_eq_of_lt _ hlt, closeWs_isOpen]
    · simp only [hk, connOpenAt, List.getElem?_set_eq_of_lt _ hlt, closeEs_isOpen]

theorem connOpenAt_closeConnRef (code : Option Nat) (s : ComponentState) (i : Nat)
    (h : s.connRef = some i) : connOpenAt (closeConnRef code s) i = false := by
  unfold closeConnRef
  rw [h]
  exact connOpenAt_closeConnAt _ _ _

theorem setCompleted_lines (i : Nat) (s : ComponentState) :
    (setCompleted i s).lines = s.lines := by
  unfold setCompleted
  split <;> rfl

theorem setCompleted_idRef (i : Nat) (s : ComponentState) :
    (setCompleted i s).idRef = s.idRef := by
  unfold setCompleted
  split <;> rfl

theorem setCompleted_running (i : Nat) (s : ComponentState) :
    (setCompleted i s).running = s.running := by
  unfold setCompleted
  split <;> rfl

theorem setCompleted_result (i : Nat) (s : ComponentState) :
    (setCompleted i s).result = s.result := by
  unfold setCompleted
  split <;> rfl

/-! ### Case lemmas for the handlers -/

theorem handleEvent_ping (p : Payload) (s : ComponentState) (hp : p.type = "ping") :
    handleEvent p s = s := by
  unfold handleEvent
  rw [if_pos hp]

theorem handleEvent_complete (p : Payload) (s : ComponentState) (hp : p.type = "complete") :
    handleEvent p s = closeConnRef none
      { s with result := p.result, done := true, running := false, termCollapsed := true } := by
  unfold handleEvent
  rw [if_neg (by rw [hp]; decide), if_pos hp]

theorem handleEvent_error (p : Payload) (s : ComponentState) (hp : p.type = "error") :
    handleEvent p s =
      { s with error := if p.msg = "" then "Agent error" else p.msg, running := false } := by
  unfold handleEvent
  rw [if_neg (by rw [hp]; decide), if_neg (by rw [hp]; decide), if_pos hp]

theorem handleEvent_other (p : Payload) (s : ComponentState) (h1 : ¬p.type = "ping")
    (h2 : ¬p.type = "complete") (h3 : ¬p.type = "error") :
    handleEvent p s = addLine p.type p.ts p.msg s := by
  unfold handleEvent
  rw [if_neg h1, if_neg h2, if_neg h3]

/-- Exhaustive description of what `handleEvent` can do. -/
theorem handleEvent_cases (p : Payload) (s : ComponentState) :
    handleEvent p s = s ∨
    handleEvent p s = closeConnRef none
      { s with result := p.result, done := true, running := false, termCollapsed := true } ∨
    handleEvent p s =
      { s with error := if p.msg = "" then "Agent error" else p.msg, running := false } ∨
    (handleEvent p s = addLine p.type p.ts p.msg s ∧ ¬p.type = "ping" ∧ ¬p.type = "complete") := by
  unfold handleEvent
  split
  · exact Or.inl (by trivial)
  · split
    · exact Or.inr (Or.inl rfl)
    · split
      · exact Or.inr (Or.inr (Or.inl rfl))
      · next h1 h2 _ => exact Or.inr (Or.inr (Or.inr ⟨rfl, h1, h2⟩))

/-- Exhaustive description of what `startResearch` can do. -/
theorem startResearch_cases (ok : Bool) (s : ComponentState) :
    startResearch ok s = { s with showAuthModal := true } ∨
    startResearch ok s = s ∨
    ∃ cs r w, startResearch ok s =
      { s with running := true, done := false, lines := [], result := none, error := "",
               termCollapsed := false, activeTab := "overview",
               conns := cs, connRef := r, wsStatus := w } := by
  unfold startResearch
  split
  · exact Or.inl (by trivial)
  · split
    · exact Or.inr (Or.inl rfl)
    · split
      · exact Or.inr (Or.inr ⟨_, _, s.wsStatus, rfl⟩)
      · exact Or.inr (Or.inr ⟨_, _, WsStatus.sse, rfl⟩)

/-- Exhaustive description of what one `step` can do, up to the helper
functions already characterised above. -/
theorem step_cases (a : Action) (s : ComponentState) :
    step a s = s ∨
    (∃ v, step a s = { s with idea := v }) ∨
    (∃ v, step a s = { s with description := v }) ∨
    (∃ ok, step a s = startResearch ok s) ∨
    step a s = reset s ∨
    (∃ cs, step a s = { s with conns := cs, wsStatus := WsStatus.ws }) ∨
    (∃ p i, step a s = handleEvent p (setCompleted i s)) ∨
    (∃ p, step a s = handleEvent p s) ∨
    (∃ t d cs, step a s = fallbackToSSE t d { s with conns := cs }) ∨
    (∃ cs, step a s = { s with conns := cs }) ∨
    (∃ cs, step a s = { addLine "error" "" connLostMsg s with
                          running := false, wsStatus := WsStatus.error, conns := cs,
                          error := serverFailMsg }) := by
  cases a with
  | setIdea v => exact Or.inr (Or.inl ⟨v, rfl⟩)
  | setDescription v => exact Or.inr (Or.inr (Or.inl ⟨v, rfl⟩))
  | start ok => exact Or.inr (Or.inr (Or.inr (Or.inl ⟨ok, rfl⟩)))
  | reset => exact Or.inr (Or.inr (Or.inr (Or.inr (Or.inl rfl))))
  | wsOpen i =>
    rcases h : s.conns[i]? with _ | c <;> simp only [step, h]
    · exact Or.inl (by trivial)
    · split
      · exact Or.inr (Or.inr (Or.inr (Or.inr (Or.inr (Or.inl ⟨_, rfl⟩)))))
      · exact Or.inl (by trivial)
  | wsMessage i p =>
    rcases h : s.conns[i]? with _ | c <;> simp only [step, h]
    · exact Or.inl (by trivial)
    · split
      · split
        · exact Or.inr (Or.inr (Or.inr (Or.inr (Or.inr (Or.inr (Or.inl ⟨p, i, rfl⟩))))))
        · exact Or.inr (Or.inr (Or.inr (Or.inr (Or.inr (Or.inr (Or.inr (Or.inl ⟨p, rfl⟩)))))))
      · exact Or.inl (by trivial)
  | wsError i =>
    rcases h : s.conns[i]? with _ | c <;> simp only [step, h]
    · exact Or.inl (by trivial)
    · split
      · exact Or.inr (Or.inr (Or.inr (Or.inr (Or.inr (Or.inr (Or.inr (Or.inr (Or.inl
          ⟨c.ideaArg, c.descArg, _, rfl⟩))))))))
      · exact Or.inl (by trivial)
  | wsClose i code =>
    rcases h : s.conns[i]? with _ | c <;> simp only [step, h]
    · exact Or.inl (by trivial)
    · split
      · split
        · exact Or.inr (Or.inr (Or.inr (Or.inr (Or.inr (Or.inr (Or.inr (Or.inr (Or.inl
            ⟨c.ideaArg, c.descArg, _, rfl⟩))))))))
        · exact Or.inr (Or.inr (Or.inr (Or.inr (Or.inr (Or.inr (Or.inr (Or.inr (Or.inr
            (Or.inl ⟨_, rfl⟩)))))))))
      · exact Or.inl (by trivial)
  | sseMessage i p =>
    rcases h : s.conns[i]? with _ | c <;> simp only [step, h]
    · exact Or.inl (by trivial)
    · split
      · exact Or.inr (Or.inr (Or.inr (Or.inr (Or.inr (Or.inr (Or.inr (Or.inl ⟨p, rfl⟩)))))))
      · exact Or.inl (by trivial)
  | sseError i =>
    rcases h : s.conns[i]? with _ | c <;> simp only [step, h]
    · exact Or.inl (by trivial)
    · split
      · exact Or.inr (Or.inr (Or.inr (Or.inr (Or.inr (Or.inr (Or.inr (Or.inr (Or.inr
          (Or.inr ⟨_, rfl⟩)))))))))
      · exact Or.inl (by trivial)

/-! ### Trace machinery -/

theorem run_nil (s0 : ComponentState) : run s0 [] = s0 := rfl

theorem run_cons (s0 : ComponentState) (a : Action) (acts : List Action) :
    run s0 (a :: acts) = run (step a s0) acts := rfl

theorem run_preserve (P : ComponentState → Prop) (hstep : ∀ s a, P s → P (step a s)) :
    ∀ (acts : List Action) (s0 : ComponentState), P s0 → P (run s0 acts) := by
  intro acts
  induction acts with
  | nil => intro s0 h; exact h
  | cons a as ih =>
    intro s0 h
    rw [run_cons]
    exact ih _ (hstep _ _ h)

/-! ### The log-id invariant -/

theorem idsFrom_append (l : LogLine) : ∀ (ls : List LogLine) (k : Nat),
    idsFrom k ls = true → l.id = k + ls.length → idsFrom k (ls ++ [l]) = true := by
  intro ls
  induction ls with
  | nil =>
    intro k _ hid
    simp only [List.length_nil, Nat.add_zero] at hid
    simp [idsFrom, hid]
  | cons x xs ih =>
    intro k h hid
    simp only [idsFrom, Bool.and_eq_true, beq_iff_eq] at h
    simp only [List.cons_append, idsFrom, Bool.and_eq_true, beq_iff_eq]
    refine ⟨h.1, ih (k + 1) h.2 ?_⟩
    simp only [List.length_cons] at hid
    omega

theorem logInv_addLine (t ts m : String) (s : ComponentState) (h : LogInv s) :
    LogInv (addLine t ts m s) := by
  obtain ⟨h1, h2⟩ := h
  have hid : ({ id := s.idRef + 1, type := t, ts := ts, msg := m } : LogLine).id
      = (s.idRef + 1 - s.lines.length) + s.lines.length := by
    show s.idRef + 1 = s.idRef + 1 - s.lines.length + s.lines.length
    omega
  have happ := idsFrom_append _ s.lines (s.idRef + 1 - s.lines.length) h1 hid
  constructor
  · show idsFrom (s.idRef + 1 + 1 - (s.lines ++ [_]).length) (s.lines ++ [_]) = true
    have hl : (s.lines ++ [({ id := s.idRef + 1, type := t, ts := ts, msg := m } : LogLine)]).length
        = s.lines.length + 1 := by simp
    rw [hl]
    have hk : s.idRef + 1 + 1 - (s.lines.length + 1) = s.idRef + 1 - s.lines.length := by omega
    rw [hk]
    exact happ
  · show (s.lines ++ [_]).length ≤ s.idRef + 1
    simp only [List.length_append, List.length_cons, List.length_nil]
    omega

theorem chain_of_idsFrom : ∀ (ls : List LogLine) (k : Nat), idsFrom k ls = true →
    List.Chain' (fun a b => a.id < b.id) ls := by
  intro ls
  induction ls with
  | nil => intro k _; exact List.chain'_nil
  | cons x xs ih =>
    intro k h
    simp only [idsFrom, Bool.and_eq_true, beq_iff_eq] at h
    refine List.chain'_cons'.mpr ⟨?_, ih (k + 1) h.2⟩
    intro y hy
    cases xs with
    | nil => simp at hy
    | cons z zs =>
      have hz : z = y := by simpa using hy
      have h2 := h.2
      simp only [idsFrom, Bool.and_eq_true, beq_iff_eq] at h2
      rw [← hz, h.1, h2.1]
      omega

theorem logInv_congr (s s' : ComponentState) (hl : s'.lines = s.lines)
    (hi : s'.idRef = s.idRef) (h : LogInv s) : LogInv s' := by
  unfold LogInv
  rw [hl, hi]
  exact h

theorem logInv_handleEvent (p : Payload) (s : ComponentState) (h : LogInv s) :
    LogInv (handleEvent p s) := by
  rcases handleEvent_cases p s with hc | hc | hc | ⟨hc, _, _⟩ <;> rw [hc]
  · exact h
  · exact logInv_congr _ _ (closeConnRef_lines _ _) (closeConnRef_idRef _ _) h
  · exact h
  · exact logInv_addLine _ _ _ _ h

theorem logInv_step (a : Action) (s : ComponentState) (h : LogInv s) : LogInv (step a s) := by
  rcases step_cases a s with hc | ⟨v, hc⟩ | ⟨v, hc⟩ | ⟨ok, hc⟩ | hc | ⟨cs, hc⟩ | ⟨p, i, hc⟩ |
    ⟨p, hc⟩ | ⟨t, d, cs, hc⟩ | ⟨cs, hc⟩ | ⟨cs, hc⟩ <;> rw [hc]
  · exact h
  · exact h
  · exact h
  · rcases startResearch_cases ok s with h2 | h2 | ⟨cs2, r, w, h2⟩ <;> rw [h2]
    · exact h
    · exact h
    · exact ⟨rfl, Nat.zero_le _⟩
  · exact ⟨rfl, Nat.zero_le _⟩
  · exact h
  · exact logInv_handleEvent _ _
      (logInv_congr _ _ (setCompleted_lines _ _) (setCompleted_idRef _ _) h)
  · exact logInv_handleEvent _ _ h
  · exact h
  · exact h
  · exact logInv_addLine _ _ _ _ h

/-! ### The running-implies-no-result invariant -/

theorem resultInv_handleEvent (p : Payload) (s : ComponentState) (h : ResultInv s) :
    ResultInv (handleEvent p s) := by
  rcases handleEvent_cases p s with hc | hc | hc | ⟨hc, _, _⟩ <;> rw [hc]
  · exact h
  · intro hr
    rw [closeConnRef_running] at hr
    simp at hr
  · intro hr
    simp at hr
  · exact h

theorem resultInv_step (a : Action) (s : ComponentState) (h : ResultInv s) :
    ResultInv (step a s) := by
  rcases step_cases a s with hc | ⟨v, hc⟩ | ⟨v, hc⟩ | ⟨ok, hc⟩ | hc | ⟨cs, hc⟩ | ⟨p, i, hc⟩ |
    ⟨p, hc⟩ | ⟨t, d, cs, hc⟩ | ⟨cs, hc⟩ | ⟨cs, hc⟩ <;> rw [hc]
  · exact h
  · exact h
  · exact h
  · rcases startResearch_cases ok s with h2 | h2 | ⟨cs2, r, w, h2⟩ <;> rw [h2]
    · exact h
    · exact h
    · intro _; rfl
  · intro hr
    rw [show (reset s).running = false from rfl] at hr
    simp at hr
  · exact h
  · exact resultInv_handleEvent _ _ (fun hr => by
      rw [setCompleted_running] at hr
      rw [setCompleted_result]
      exact h hr)
  · exact resultInv_handleEvent _ _ h
  · exact h
  · exact h
  · intro hr
    exact (Bool.false_ne_true hr).elim

/-! ### The no-control-kind-in-log invariant -/

theorem typesOk_addLine (t ts m : String) (s : ComponentState) (ht1 : ¬t = "ping")
    (ht2 : ¬t = "complete") (h : TypesOk s) : TypesOk (addLine t ts m s) := by
  intro l hl
  rcases List.mem_append.mp hl with h1 | h1
  · exact h l h1
  · have : l = { id := s.idRef + 1, type := t, ts := ts, msg := m } := by simpa using h1
    rw [this]
    exact ⟨ht1, ht2⟩

theorem typesOk_congr (s s' : ComponentState) (hl : s'.lines = s.lines) (h : TypesOk s) :
    TypesOk s' := by
  intro l hml
  rw [hl] at hml
  exact h l hml

theorem typesOk_handleEvent (p : Payload) (s : ComponentState) (h : TypesOk s) :
    TypesOk (handleEvent p s) := by
  rcases handleEvent_cases p s with hc | hc | hc | ⟨hc, h1, h2⟩ <;> rw [hc]
  · exact h
  · exact typesOk_congr _ _ (closeConnRef_lines _ _) h
  · exact h
  · exact typesOk_addLine _ _ _ _ h1 h2 h

theorem typesOk_step (a : Action) (s : ComponentState) (h : TypesOk s) : TypesOk (step a s) := by
  rcases step_cases a s with hc | ⟨v, hc⟩ | ⟨v, hc⟩ | ⟨ok, hc⟩ | hc | ⟨cs, hc⟩ | ⟨p, i, hc⟩ |
    ⟨p, hc⟩ | ⟨t, d, cs, hc⟩ | ⟨cs, hc⟩ | ⟨cs, hc⟩ <;> rw [hc]
  · exact h
  · exact h
  · exact h
  · rcases startResearch_cases ok s with h2 | h2 | ⟨cs2, r, w, h2⟩ <;> rw [h2]
    · exact h
    · exact h
    · intro l hml
      simp at hml
  · intro l hml
    rw [show (reset s).lines = ([] : List LogLine) from rfl] at hml
    simp at hml
  · exact h
  · exact typesOk_handleEvent _ _ (typesOk_congr _ _ (setCompleted_lines _ _) h)
  · exact typesOk_handleEvent _ _ h
  · exact h
  · exact h
  · exact typesOk_addLine _ _ _ _ (by decide) (by decide) h

/-! ### Further helper lemmas -/

/-- A message delivered on a closed connection (of either kind) is a no-op:
closed transports deliver nothing. -/
theorem step_message_closed (w : ComponentState) (i : Nat) (p : Payload)
    (h : connOpenAt w i = false) :
    step (Action.sseMessage i p) w = w ∧ step (Action.wsMessage i p) w = w := by
  rcases hc : w.conns[i]? with _ | c
  · constructor <;> simp only [step, hc]
  · have ho : c.isOpen = false := by
      unfold connOpenAt at h
      rw [hc] at h
      exact h
    constructor <;> simp only [step, hc]
    · exact if_neg (fun hcon => Bool.false_ne_true (ho ▸ hcon.2))
    · exact if_neg (fun hcon => Bool.false_ne_true (ho ▸ hcon.2))

/-- Closing an open WebSocket connection at index `i` records the status code
passed by the client. -/
theorem closeConnAt_ws_self (code : Option Nat) (i : Nat) (s : ComponentState) (c : Conn)
    (hc : s.conns[i]? = some c) (hk : c.kind = ConnKind.ws) (ho : c.isOpen = true) :
    (closeConnAt code i s).conns[i]? =
      some { c with isOpen := false, clientClose := some code } := by
  have hlt : i < s.conns.length := (List.getElem?_eq_some.mp hc).1
  unfold closeConnAt
  rw [hc]
  simp only [hk]
  rw [List.getElem?_set_eq_of_lt _ hlt, closeWs_of_isOpen _ _ ho, hk]

theorem stageOfMsg_bounds (m : String) : 0 ≤ stageOfMsg m ∧ stageOfMsg m ≤ 7 := by
  unfold stageOfMsg
  (repeat' split) <;> decide

theorem currentStep_bounds (d r : Bool) (ls : List LogLine) :
    -1 ≤ currentStep d r ls ∧ currentStep d r ls ≤ 8 := by
  unfold currentStep
  split
  · decide
  · split
    · decide
    · split
      · decide
      · split
        · decide
        · next l _ =>
          rcases stageOfMsg_bounds l.msg with ⟨hl, hr⟩
          omega

/-! ### The claims -/

/-- Claim C1.  The claim requires exactly one fallback attempt after a
primary-transport failure.  Evaluating the model at the failing input — the
primary WebSocket fires its error event (whose handler opens the SSE
fallback) followed by the abnormal-code close event that accompanies every
WebSocket failure (whose handler, seeing `wsCompleted` false and a code other
than 1000, opens the SSE fallback again) — shows that the code opens TWO
fallback connections carrying the identical `{idea, context, credential}`
request, contradicting the exactly-once requirement. -/
theorem C1_double_fallback :
    (sseConns (run demoInit failTrace)).length = 2 ∧
    (sseConns (run demoInit failTrace)).all
      (fun c => c.ideaArg == "AI code review tool" && c.descArg == "" && c.tokenArg == "tok123")
      = true := by
  decide

/-- Claim C2, counterexample.  After the error-path double fallback, `reset()`
closes only the connection tracked by `connRef`; the stale first fallback
connection stays open and an event it delivers after the reset IS appended to
the new session's log — refuting "every event delivered afterwards by the
superseded transport is discarded". -/
theorem C2_counterexample :
    (run demoInit (resetDiscardTrace.take 4)).running = false ∧
    (run demoInit (resetDiscardTrace.take 4)).lines = [] ∧
    connOpenAt (run demoInit (resetDiscardTrace.take 4)) 1 = true ∧
    (run demoInit resetDiscardTrace).lines.map (fun l => l.msg) = ["Plan Queries"] := by
  decide

/-- Claim C2, amended.  `reset()` immediately returns the session to Idle with
an empty log, clears result and errorMessage, and closes the transport
currently tracked by `connRef`; every event delivered afterwards on any
CLOSED transport is discarded.  (The unqualified original claim fails: a
stale fallback connection left open by the error-path double fallback is not
closed by `reset()`, and its events are still appended.) -/
theorem C2_reset_properties (s : ComponentState) :
    (reset s).running = false ∧ (reset s).done = false ∧ (reset s).lines = [] ∧
    (reset s).result = none ∧ (reset s).error = "" ∧ (reset s).wsStatus = WsStatus.idle ∧
    (∀ i, s.connRef = some i → connOpenAt (reset s) i = false) ∧
    (∀ (w : ComponentState) (i : Nat) (p : Payload), connOpenAt w i = false →
      step (Action.sseMessage i p) w = w ∧ step (Action.wsMessage i p) w = w) := by
  refine ⟨rfl, rfl, rfl, rfl, rfl, rfl, ?_, ?_⟩
  · intro i hi
    exact connOpenAt_closeConnRef (some 1000) s i hi
  · intro w i p h
    exact step_message_closed w i p h

/-- Witness for the amended C2 at a concrete reachable state. -/
theorem C2_reset_properties_witness :
    (reset (run demoInit [Action.start true])).lines = [] ∧
    step (Action.sseMessage 0 pPing) (reset (run demoInit [Action.start true])) =
      reset (run demoInit [Action.start true]) := by
  refine ⟨(C2_reset_properties (run demoInit [Action.start true])).2.2.1, ?_⟩
  exact ((C2_reset_properties (run demoInit [Action.start true])).2.2.2.2.2.2.2
    (reset (run demoInit [Action.start true])) 0 pPing (by decide)).1

/-- Claim C3, counterexample.  After the double fallback, a `complete`
delivered by the current connection moves the session to Done with an empty
log, but a later `step` event from the stale, still-open first fallback is
processed and appended — refuting "every event received after that transition
is ignored". -/
theorem C3_counterexample :
    (run demoInit (staleCompleteTrace.take 4)).done = true ∧
    (run demoInit (staleCompleteTrace.take 4)).lines = [] ∧
    (run demoInit staleCompleteTrace).done = true ∧
    (run demoInit staleCompleteTrace).lines.map (fun l => l.msg) = ["1 / 6 Trends"] := by
  decide

/-- Claim C3, amended.  An event of kind `complete` sets status Done, stores
the payload as the result, clears running, leaves the log unchanged, and
closes the transport tracked by `connRef` (WebSocket `close()` without a
code, EventSource `close()`); events delivered afterwards on any CLOSED
transport are ignored.  (The unqualified "every event received after that
transition is ignored" fails only for a stale connection left open by the
error-path double fallback.) -/
theorem C3_complete_transition (s : ComponentState) (p : Payload) (hp : p.type = "complete") :
    (handleEvent p s).done = true ∧ (handleEvent p s).running = false ∧
    (handleEvent p s).result = p.result ∧ (handleEvent p s).lines = s.lines ∧
    (∀ i, s.connRef = some i → connOpenAt (handleEvent p s) i = false) ∧
    (∀ (w : ComponentState) (i : Nat) (q : Payload), connOpenAt w i = false →
      step (Action.sseMessage i q) w = w ∧ step (Action.wsMessage i q) w = w) := by
  rw [handleEvent_complete p s hp]
  refine ⟨?_, ?_, ?_, ?_, ?_, ?_⟩
  · rw [closeConnRef_done]
  · rw [closeConnRef_running]
  · rw [closeConnRef_result]
  · rw [closeConnRef_lines]
  · intro i hi
    exact connOpenAt_closeConnRef none _ i hi
  · intro w i q h
    exact step_message_closed w i q h

/-- Witness for the amended C3 at a concrete reachable state. -/
theorem C3_complete_transition_witness :
    (handleEvent pComplete (run demoInit [Action.start true])).done = true :=
  (C3_complete_transition (run demoInit [Action.start true]) pComplete rfl).1

/-- Claim C4, counterexample.  The id counter (`idRef`) is never reset: after
a first session appended one line (id 1) and was reset, the first line of the
second session gets id 2, not 1 — refuting "the id counter is session-local
and starts at 1 for every session". -/
theorem C4_counterexample :
    (run demoInit twoSessionTrace).lines.map (fun l => l.id) = [2] := by
  decide

/-- Claim C4, amended.  In every reachable state the ids in the log are
strictly increasing and consecutive, ending at the current value of the
component-global counter `idRef`; the counter starts at 1 only for the whole
component lifetime and is NOT reset per session, so a later session's first
id continues from the total number of lines ever appended. -/
theorem C4_log_ids (idea description token : String) (u : Option AuthUser)
    (acts : List Action) :
    LogInv (run (mkInit idea description token u) acts) ∧
    List.Chain' (fun a b => a.id < b.id) (run (mkInit idea description token u) acts).lines := by
  have h : LogInv (run (mkInit idea description token u) acts) :=
    run_preserve LogInv (fun s a => logInv_step a s) acts _ ⟨rfl, Nat.le_refl 0⟩
  exact ⟨h, chain_of_idsFrom _ _ h.1⟩

/-- Witness for the amended C4 at a concrete trace. -/
theorem C4_log_ids_witness :
    LogInv (run (mkInit "a" "" "t" none) []) :=
  (C4_log_ids "a" "" "t" none []).1

/-- Claim C5.  The derived pipeline stage is `currentStep done running lines`:
8 when Done; -1 when not Running; 0 when Running with no step/step_done
entry; otherwise the marker mapping (`stageOfMsg`, always in 0..7) applied to
the most recent step/step_done entry found by the backward scan; a message
containing "Plan Queries" yields stage 0 and one containing "1 / 6 Trends"
yields stage 1; the value always lies in [-1, 8]. -/
theorem C5_progress_inferencer (d r : Bool) (ls : List LogLine) :
    (d = true → currentStep d r ls = 8) ∧
    (d = false → r = false → currentStep d r ls = -1) ∧
    (d = false → r = true → ls.all (fun l => !isStepLine l) = true →
      currentStep d r ls = 0) ∧
    (d = false → r = true → ∀ l, ls.reverse.find? isStepLine = some l →
      currentStep d r ls = stageOfMsg l.msg) ∧
    (∀ m, 0 ≤ stageOfMsg m ∧ stageOfMsg m ≤ 7) ∧
    currentStep false true [{ id := 1, type := "step", ts := "", msg := "Plan Queries" }] = 0 ∧
    currentStep false true [{ id := 1, type := "step", ts := "", msg := "Plan Queries" },
      { id := 2, type := "step", ts := "", msg := "1 / 6 Trends" }] = 1 ∧
    stageOfMsg "no marker matches this text" = 0 ∧
    (-1 ≤ currentStep d r ls ∧ currentStep d r ls ≤ 8) := by
  refine ⟨?_, ?_, ?_, ?_, stageOfMsg_bounds, by decide, by decide, by decide,
    currentStep_bounds d r ls⟩
  · intro hd
    subst hd
    rfl
  · intro hd hr
    subst hd
    subst hr
    rfl
  · intro hd hr hall
    subst hd
    subst hr
    have hfind : ls.reverse.find? isStepLine = none := by
      rw [List.find?_eq_none]
      intro x hx
      have hmem := List.mem_reverse.mp hx
      have := (List.all_eq_true.mp hall) x hmem
      simpa using this
    unfold currentStep
    rw [if_neg (by decide), if_neg (by decide)]
    split
    · rfl
    · rw [hfind]
  · intro hd hr l hfind
    subst hd
    subst hr
    have hne : ls.isEmpty = false := by
      cases ls with
      | nil => simp at hfind
      | cons x xs => rfl
    unfold currentStep
    rw [if_neg (by decide), if_neg (by decide), if_neg (by rw [hne]; decide), hfind]

/-- Witness for C5 at concrete inputs. -/
theorem C5_progress_inferencer_witness :
    currentStep true false [] = 8 ∧ currentStep false false [] = -1 :=
  ⟨(C5_progress_inferencer true false []).1 rfl,
   (C5_progress_inferencer false false []).2.1 rfl rfl⟩

/-- Claim C6.  While Running, an `error` event carrying a nonempty message m
makes the state exactly `{ old with error := m, running := false }`: the
status becomes Error with errorMessage m, the log is untouched (no entry is
appended for the error event), the result is unchanged — and in every
reachable Running state the result is absent — and the connections are not
touched (the transport is not closed). -/
theorem C6_error_event (s : ComponentState) (p : Payload) (_hr : s.running = true)
    (hp : p.type = "error") (hm : ¬p.msg = "") :
    handleEvent p s = { s with error := p.msg, running := false } ∧
    (handleEvent p s).lines = s.lines ∧ (handleEvent p s).result = s.result ∧
    (handleEvent p s).conns = s.conns ∧ (handleEvent p s).done = s.done ∧
    (∀ idea description token u acts,
      (run (mkInit idea description token u) acts).running = true →
      (run (mkInit idea description token u) acts).result = none) := by
  have he : handleEvent p s = { s with error := p.msg, running := false } := by
    rw [handleEvent_error p s hp, if_neg hm]
  refine ⟨he, by rw [he], by rw [he], by rw [he], by rw [he], ?_⟩
  intro idea description token u acts
  exact run_preserve ResultInv (fun s' a => resultInv_step a s') acts _
    (fun hrun => (Bool.false_ne_true hrun).elim)

/-- Witness for C6 at a concrete reachable Running state. -/
theorem C6_error_event_witness :
    (handleEvent pError (run demoInit [Action.start true])).error = "rate limited" := by
  have h := C6_error_event (run demoInit [Action.start true]) pError (by decide) rfl (by decide)
  rw [h.1]
  rfl

/-- Claim C7.  `startResearch` is a no-op on the session state when the
session is already running or the idea is empty after trimming: status, log,
result, errorMessage, connections, `connRef` and `wsStatus` are all
untouched, and no transport is opened. -/
theorem C7_start_guard (s : ComponentState) (ok : Bool)
    (h : s.running = true ∨ jsTrim s.idea = "") :
    (startResearch ok s).running = s.running ∧ (startResearch ok s).done = s.done ∧
    (startResearch ok s).lines = s.lines ∧ (startResearch ok s).result = s.result ∧
    (startResearch ok s).error = s.error ∧ (startResearch ok s).conns = s.conns ∧
    (startResearch ok s).connRef = s.connRef ∧ (startResearch ok s).wsStatus = s.wsStatus := by
  unfold startResearch
  split
  · exact ⟨rfl, rfl, rfl, rfl, rfl, rfl, rfl, rfl⟩
  · rw [if_pos (h.elim Or.inr Or.inl)]
    exact ⟨rfl, rfl, rfl, rfl, rfl, rfl, rfl, rfl⟩

/-- Witness for C7: an empty idea (after trimming) opens no transport. -/
theorem C7_start_guard_witness :
    (startResearch true (mkInit "   " "" "tok" (some { uid := "u", name := "n", email := "e" }))).conns
      = (mkInit "   " "" "tok" (some { uid := "u", name := "n", email := "e" })).conns :=
  (C7_start_guard (mkInit "   " "" "tok" (some { uid := "u", name := "n", email := "e" })) true
    (Or.inr (by decide))).2.2.2.2.2.1

/-- Claim C8.  `reset()` closes the WebSocket tracked by `connRef` with the
client-reset status code 1000 (and closes an SSE connection), and a close
event bearing code 1000 never triggers the fallback, in any state: its step
opens no connection and changes no session field. -/
theorem C8_reset_close_code (s : ComponentState) :
    (∀ i c, s.connRef = some i → s.conns[i]? = some c → c.kind = ConnKind.ws →
      c.isOpen = true →
      (reset s).conns[i]? = some { c with isOpen := false, clientClose := some (some 1000) }) ∧
    (∀ i, s.connRef = some i → connOpenAt (reset s) i = false) ∧
    (∀ (w : ComponentState) (i : Nat),
      (step (Action.wsClose i 1000) w).conns.length = w.conns.length ∧
      (step (Action.wsClose i 1000) w).connRef = w.connRef ∧
      (step (Action.wsClose i 1000) w).wsStatus = w.wsStatus ∧
      (step (Action.wsClose i 1000) w).lines = w.lines ∧
      (step (Action.wsClose i 1000) w).running = w.running) := by
  refine ⟨?_, ?_, ?_⟩
  · intro i c hi hc hk ho
    show (closeConnRef (some 1000) s).conns[i]? = _
    unfold closeConnRef
    rw [hi]
    exact closeConnAt_ws_self (some 1000) i s c hc hk ho
  · intro i hi
    exact connOpenAt_closeConnRef (some 1000) s i hi
  · intro w i
    rcases h : w.conns[i]? with _ | c
    · refine ⟨?_, ?_, ?_, ?_, ?_⟩ <;> simp only [step, h]
    · have hstep : step (Action.wsClose i 1000) w =
          { w with conns := w.conns.set i { c with isOpen := false, closeFired := true } } ∨
          step (Action.wsClose i 1000) w = w := by
        simp only [step, h]
        split
        · split
          · next hcon => exact (hcon.2 trivial).elim
          · exact Or.inl rfl
        · exact Or.inr rfl
      rcases hstep with hs | hs <;> rw [hs]
      · exact ⟨by simp, rfl, rfl, rfl, rfl⟩
      · exact ⟨rfl, rfl, rfl, rfl, rfl⟩

/-- Witness for C8 at a concrete reachable state with an open WebSocket. -/
theorem C8_reset_close_code_witness :
    connOpenAt (reset (run demoInit [Action.start true])) 0 = false :=
  (C8_reset_close_code (run demoInit [Action.start true])).2.1 0 (by decide)

/-- Claim C9.  In every reachable state, no entry of kind `ping` or `complete`
appears in the log (the input of the Progress Inferencer), and hence none
appears among the rendered lines either. -/
theorem C9_no_control_kinds (idea description token : String) (u : Option AuthUser)
    (acts : List Action) :
    TypesOk (run (mkInit idea description token u) acts) ∧
    (∀ l ∈ renderedLines (run (mkInit idea description token u) acts),
      ¬l.type = "ping" ∧ ¬l.type = "complete") := by
  have h : TypesOk (run (mkInit idea description token u) acts) :=
    run_preserve TypesOk (fun s a => typesOk_step a s) acts _
      (fun l hl => absurd hl (List.not_mem_nil l))
  refine ⟨h, ?_⟩
  intro l hl
  exact h l (List.mem_filter.mp hl).1

/-- Witness for C9 at a concrete trace with a logged line. -/
theorem C9_no_control_kinds_witness :
    ¬({ id := 1, type := "init", ts := "", msg := "boot" } : LogLine).type = "ping" :=
  ((C9_no_control_kinds "AI code review tool" "" "tok123"
      (some { uid := "u1", name := "Ada", email := "ada@example.com" })
      [Action.start true, Action.wsMessage 0 pInit]).1
    { id := 1, type := "init", ts := "", msg := "boot" } (by decide)).1

/-- Claim C10.  `startResearch` with no authenticated user only requests the
login modal: the resulting state equals the old state with
`showAuthModal := true`, so status, log, result, errorMessage and the
connections are all unchanged and no transport is opened. -/
theorem C10_anonymous_start (s : ComponentState) (ok : Bool) (h : s.user = none) :
    startResearch ok s = { s with showAuthModal := true } := by
  unfold startResearch
  rw [if_pos h]

/-- Witness for C10 at a concrete anonymous state. -/
theorem C10_anonymous_start_witness :
    startResearch true (mkInit "idea" "" "" none) =
      { mkInit "idea" "" "" none with showAuthModal := true } :=
  C10_anonymous_start (mkInit "idea" "" "" none) true rfl

end StartupValidator
